import Mathlib

/-!
Verification of the natnet-client library (NatNet streaming protocol client).

This file gives a shallow embedding of the pure core of the library:
the Version type (version.py), the PacketBuffer cursor reads
(packet_buffer.py), the family of packet decoders (data_frame.py,
data_descriptions.py, server_info.py) and the send / dispatch /
protocol-version-setter logic of the client (nat_net_client.py).

Modelling conventions:
- Python bytes become List Nat (each element a byte value 0..255 in intent).
- Python int becomes Nat where the source only ever holds non-negative
  values (version components, byte values, counts).
- IEEE-754 float fields are represented by their raw little-endian bit
  words (Nat): no claim depends on float arithmetic, only on how many
  bytes a float field consumes and where it sits.
- Python exceptions become an Except PyErr result; an exception raised
  mid-decode discards the partial state, exactly as an escaping Python
  exception does.
- Python str values are represented as lists of code points (List Nat);
  encoding and decoding to UTF-8 bytes is modelled explicitly.
-/

/-- Kinds of Python exceptions the embedded code can raise. -/
inductive PyErr where
  | structError
  | unicodeDecodeError
  | typeError
  | overflowError
  | assertionError
  deriving Repr, DecidableEq

/-! ## Version (version.py) -/

/-- Version: an immutable tuple of integer components (version.py line 2). -/
structure Version where
  components : List Nat
  deriving Repr, DecidableEq

/-- Loop body of Version.__compare (version.py lines 38-43): walk the zipped
pairs and return at the first strictly greater / smaller pair, else 0. -/
def Version.compareAux : List (Nat × Nat) → Int
  | [] => 0
  | (a, b) :: rest => if a > b then 1 else if a < b then -1 else Version.compareAux rest

/-- Version.__compare (version.py lines 29-43). The source computes
zero-padded copies of the component tuples into local variables, but the
loop then zips the ORIGINAL unpadded tuples (it iterates over
v1.__components and v2.__components, not the padded locals), so the
padding has no effect: only the common prefix is compared. The padded
locals are reproduced here as unused bindings to mirror the source. -/
def Version.compare (v1 v2 : Version) : Int :=
  let c1 := v1.components
  let c2 := v2.components
  -- Zero pad (dead in the source: the loop below ignores these)
  let _c1pad := if c1.length < c2.length then c1 ++ List.replicate (c2.length - c1.length) 0 else c1
  let _c2pad := if c2.length < c1.length then c2 ++ List.replicate (c1.length - c2.length) 0 else c2
  Version.compareAux (List.zip v1.components v2.components)

/-- Version.__gt__ (version.py lines 45-49). -/
def Version.gt (v1 v2 : Version) : Bool :=
  Version.compare v1 v2 = 1

/-- Version.__ge__ (version.py lines 51-55): compare result in [0, 1]. -/
def Version.ge (v1 v2 : Version) : Bool :=
  Version.compare v1 v2 = 0 ∨ Version.compare v1 v2 = 1

/-- Version.__lt__ (version.py lines 57-61). -/
def Version.lt (v1 v2 : Version) : Bool :=
  Version.compare v1 v2 = -1

/-- Version.__le__ (version.py lines 63-67): compare result in [-1, 0]. -/
def Version.le (v1 v2 : Version) : Bool :=
  Version.compare v1 v2 = -1 ∨ Version.compare v1 v2 = 0

/-- Version.__eq__ (version.py lines 69-73). -/
def Version.eq (v1 v2 : Version) : Bool :=
  Version.compare v1 v2 = 0

/-- Version.__ne__ (version.py lines 75-79). -/
def Version.ne (v1 v2 : Version) : Bool :=
  Version.compare v1 v2 ≠ 0

/-- Version.truncate (version.py lines 21-22): keep the first pos components
(a Python slice clamps to the available length). -/
def Version.truncate (v : Version) (pos : Nat) : Version :=
  ⟨v.components.take pos⟩

/-- Version.__str__ (version.py lines 24-25): dot-joined components. -/
def Version.str (v : Version) : String :=
  String.intercalate "." (v.components.map (fun n => Nat.repr n))

/-! ## UTF-8 codec

Python str.encode("utf-8") and bytes.decode("utf-8"), modelled over lists
of code points / bytes. The decoder is the strict decoder: it rejects
continuation-byte errors, overlong forms, surrogates and values above
U+10FFFF, exactly the inputs on which Python raises UnicodeDecodeError. -/

/-- Encode one code point to its UTF-8 byte sequence. -/
def utf8EncodeChar (c : Nat) : List Nat :=
  if c < 0x80 then [c]
  else if c < 0x800 then [0xC0 + c / 64, 0x80 + c % 64]
  else if c < 0x10000 then [0xE0 + c / 4096, 0x80 + c / 64 % 64, 0x80 + c % 64]
  else [0xF0 + c / 0x40000, 0x80 + c / 4096 % 64, 0x80 + c / 64 % 64, 0x80 + c % 64]

/-- Encode a string (list of code points) to UTF-8 bytes. -/
def utf8Encode (s : List Nat) : List Nat :=
  (s.map utf8EncodeChar).flatten

/-- Whether a byte is a UTF-8 continuation byte 0x80..0xBF. -/
def utf8Cont (b : Nat) : Bool :=
  0x80 ≤ b ∧ b ≤ 0xBF

/-- Strict UTF-8 decoder: bytes to code points, none on any malformed
sequence (where Python bytes.decode("utf-8") raises UnicodeDecodeError). -/
def utf8Decode : List Nat → Option (List Nat)
  | [] => some []
  | b :: rest =>
    if b < 0x80 then
      (utf8Decode rest).map (fun cs => b :: cs)
    else if 0xC2 ≤ b ∧ b ≤ 0xDF then
      match rest with
      | c1 :: rest1 =>
        if utf8Cont c1 then
          (utf8Decode rest1).map (fun cs => ((b - 0xC0) * 64 + (c1 - 0x80)) :: cs)
        else none
      | [] => none
    else if 0xE0 ≤ b ∧ b ≤ 0xEF then
      match rest with
      | c1 :: c2 :: rest2 =>
        let lowOk :=
          if b = 0xE0 then 0xA0 ≤ c1 ∧ c1 ≤ 0xBF
          else if b = 0xED then 0x80 ≤ c1 ∧ c1 ≤ 0x9F
          else utf8Cont c1
        if lowOk ∧ utf8Cont c2 then
          (utf8Decode rest2).map
            (fun cs => ((b - 0xE0) * 4096 + (c1 - 0x80) * 64 + (c2 - 0x80)) :: cs)
        else none
      | _ => none
    else if 0xF0 ≤ b ∧ b ≤ 0xF4 then
      match rest with
      | c1 :: c2 :: c3 :: rest3 =>
        let lowOk :=
          if b = 0xF0 then 0x90 ≤ c1 ∧ c1 ≤ 0xBF
          else if b = 0xF4 then 0x80 ≤ c1 ∧ c1 ≤ 0x8F
          else utf8Cont c1
        if lowOk ∧ utf8Cont c2 ∧ utf8Cont c3 then
          (utf8Decode rest3).map
            (fun cs =>
              ((b - 0xF0) * 0x40000 + (c1 - 0x80) * 4096 + (c2 - 0x80) * 64 + (c3 - 0x80)) :: cs)
        else none
      | _ => none
    else none

/-! ## PacketBuffer (packet_buffer.py) -/

/-- PacketBuffer state: an immutable byte view plus a cursor
(packet_buffer.py lines 5-8). -/
structure PacketBuffer where
  data : List Nat
  pointer : Nat
  deriving Repr, DecidableEq

/-- Parser shape shared by every reader: a state transformer over
PacketBuffer that can raise a Python exception. -/
def ParseM (α : Type) : Type :=
  PacketBuffer → Except PyErr (α × PacketBuffer)

def ParseM.pure (a : α) : ParseM α := fun s => .ok (a, s)

def ParseM.bind (p : ParseM α) (f : α → ParseM β) : ParseM β := fun s =>
  match p s with
  | .ok (a, s2) => f a s2
  | .error e => .error e

def ParseM.raise (e : PyErr) : ParseM α := fun _ => .error e

/-- Read the current buffer state (used where the source inspects
buffer.pointer or the underlying data without consuming bytes). -/
def ParseM.get : ParseM PacketBuffer := fun s => .ok (s, s)

instance : Monad ParseM where
  pure := ParseM.pure
  bind := ParseM.bind

/-- Little-endian value of a byte list (least significant byte first). -/
def leVal : List Nat → Nat
  | [] => 0
  | b :: rest => b + 256 * leVal rest

/-- PacketBuffer.read (packet_buffer.py lines 28-33) at the byte level:
struct.unpack_from demands size bytes at the offset and raises
struct.error otherwise; on success the cursor advances by exactly size. -/
def PacketBuffer.readBytes (size : Nat) : ParseM (List Nat) := fun b =>
  if b.pointer + size ≤ b.data.length then
    .ok ((b.data.drop b.pointer).take size, { b with pointer := b.pointer + size })
  else .error .structError

/-- PacketBuffer.read_uint16 (packet_buffer.py lines 35-36). -/
def PacketBuffer.read_uint16 : ParseM Nat := do
  let bs ← PacketBuffer.readBytes 2
  pure (leVal bs)

/-- PacketBuffer.read_uint32 (packet_buffer.py lines 38-39). -/
def PacketBuffer.read_uint32 : ParseM Nat := do
  let bs ← PacketBuffer.readBytes 4
  pure (leVal bs)

/-- PacketBuffer.read_uint64 (packet_buffer.py lines 41-42). -/
def PacketBuffer.read_uint64 : ParseM Nat := do
  let bs ← PacketBuffer.readBytes 8
  pure (leVal bs)

/-- PacketBuffer.read_float32 (packet_buffer.py lines 44-45); value kept as
the raw 32-bit little-endian word. -/
def PacketBuffer.read_float32 : ParseM Nat := do
  let bs ← PacketBuffer.readBytes 4
  pure (leVal bs)

/-- PacketBuffer.read_float64 (packet_buffer.py lines 50-51); raw word. -/
def PacketBuffer.read_float64 : ParseM Nat := do
  let bs ← PacketBuffer.readBytes 8
  pure (leVal bs)

/-- Run a reader a fixed number of times, collecting the results in order. -/
def readCount (n : Nat) (p : ParseM α) : ParseM (List α) :=
  match n with
  | 0 => pure []
  | m + 1 => do
    let a ← p
    let rest ← readCount m p
    pure (a :: rest)

/-- PacketBuffer.read_float32_array (packet_buffer.py lines 47-48):
count consecutive f32 words (one struct read of 4 * count bytes). -/
def PacketBuffer.read_float32_array (count : Nat) : ParseM (List Nat) :=
  readCount count PacketBuffer.read_float32

/-- Bytes of the slice before the first NUL byte
(bytes.partition on the NUL separator, first component). -/
def takeUntilNul (bs : List Nat) : List Nat :=
  bs.takeWhile (fun b => b ≠ 0)

/-- PacketBuffer.read_string (packet_buffer.py lines 14-26). The window is
the remaining data, clamped by max_length when given (a Python slice clamps
silently, it never raises for a short buffer). The bytes before the first
NUL of the window are UTF-8 decoded; with static_length the cursor advances
by exactly max_length (which the source asserts to be present), otherwise
by the prefix length plus one. -/
def PacketBuffer.read_string (maxLength : Option Nat) (staticLength : Bool) :
    ParseM (List Nat) := fun b =>
  let dataSlice :=
    match maxLength with
    | none => b.data.drop b.pointer
    | some m => (b.data.drop b.pointer).take m
  let strEnc := takeUntilNul dataSlice
  match utf8Decode strEnc with
  | none => .error .unicodeDecodeError
  | some strDec =>
    if staticLength then
      match maxLength with
      | none => .error .assertionError
      | some m => .ok (strDec, { b with pointer := b.pointer + m })
    else
      .ok (strDec, { b with pointer := b.pointer + strEnc.length + 1 })

/-! ## Version comparisons as run inside decoders

Every decoder receives the protocol version variable of the client, which
is None until the SERVERINFO handshake. Comparing None with a Version in
Python raises TypeError (Version.__ge__ and friends reject non-Version
operands, version.py lines 45-79), so the comparison itself is fallible. -/

/-- The source expression protocol_version >= Version(...): TypeError when
the protocol version is still None. -/
def mvge (pv : Option Version) (w : Version) : ParseM Bool :=
  match pv with
  | none => ParseM.raise .typeError
  | some v => pure (Version.ge v w)

/-- The source expression protocol_version < Version(...): TypeError when
the protocol version is still None. -/
def mvlt (pv : Option Version) (w : Version) : ParseM Bool :=
  match pv with
  | none => ParseM.raise .typeError
  | some v => pure (Version.lt v w)

/-! ## Frame records and decoders (data_frame.py)

Vec3 and Vec4 values are lists of raw f32 words (data_types.py is not part
of the sources; the spec describes Vec3 and Vec4 as plain 3- and 4-float
tuples, which is all the decoders rely on). -/

/-- FramePrefix (data_frame.py lines 11-17). -/
structure FramePrefix where
  frame_number : Nat
  deriving Repr, DecidableEq

/-- FramePrefix.read_from_buffer (data_frame.py lines 15-17). -/
def FramePrefix.read (_pv : Option Version) : ParseM FramePrefix := do
  let n ← PacketBuffer.read_uint32
  pure ⟨n⟩

/-- MarkerSet (data_frame.py lines 20-30); the model name is a decoded
string (list of code points). -/
structure MarkerSet where
  model_name : List Nat
  marker_pos_list : List (List Nat)
  deriving Repr, DecidableEq

/-- MarkerSet.read_from_buffer (data_frame.py lines 25-30). -/
def MarkerSet.read (_pv : Option Version) : ParseM MarkerSet := do
  let model_name ← PacketBuffer.read_string none false
  let marker_count ← PacketBuffer.read_uint32
  let marker_pos_list ← readCount marker_count (PacketBuffer.read_float32_array 3)
  pure ⟨model_name, marker_pos_list⟩

/-- RigidBodyMarker (data_frame.py lines 34-38). -/
structure RigidBodyMarker where
  pos : List Nat
  id_num : Option Nat
  size : Option Nat
  deriving Repr, DecidableEq

/-- RigidBody (data_frame.py lines 41-48). -/
structure RigidBody where
  id_num : Nat
  pos : List Nat
  rot : List Nat
  markers : Option (List RigidBodyMarker)
  tracking_valid : Option Bool
  marker_error : Option Nat
  deriving Repr, DecidableEq

/-- RigidBody.read_from_buffer (data_frame.py lines 50-81). -/
def RigidBody.read (pv : Option Version) : ParseM RigidBody := do
  let id_num ← PacketBuffer.read_uint32
  let pos ← PacketBuffer.read_float32_array 3
  let rot ← PacketBuffer.read_float32_array 4
  -- RB marker data: before version 3.0 only
  let lt30 ← mvlt pv (Version.mk [3, 0])
  let markers ←
    if lt30 then do
      let marker_count ← PacketBuffer.read_uint32
      let marker_positions ← readCount marker_count (PacketBuffer.read_float32_array 3)
      let ge2 ← mvge pv (Version.mk [2])
      let idsSizes ←
        if ge2 then do
          let marker_ids ← readCount marker_count PacketBuffer.read_uint32
          let marker_sizes ← readCount marker_count PacketBuffer.read_float32
          ParseM.pure (marker_ids.map some, marker_sizes.map some)
        else
          ParseM.pure (List.replicate marker_count (none : Option Nat),
            List.replicate marker_count (none : Option Nat))
      ParseM.pure (some ((marker_positions.zip (idsSizes.1.zip idsSizes.2)).map
        (fun x => RigidBodyMarker.mk x.1 x.2.1 x.2.2)))
    else ParseM.pure none
  let ge2 ← mvge pv (Version.mk [2])
  let marker_error ← if ge2 then some <$> PacketBuffer.read_float32 else ParseM.pure none
  -- Version 2.6 and later
  let ge26 ← mvge pv (Version.mk [2, 6])
  let tracking_valid ←
    if ge26 then do
      let param ← PacketBuffer.read_uint16
      ParseM.pure (some ((param &&& 0x01) != 0))
    else ParseM.pure none
  pure ⟨id_num, pos, rot, markers, tracking_valid, marker_error⟩

/-- Skeleton (data_frame.py lines 84-95). -/
structure Skeleton where
  id_num : Nat
  rigid_bodies : List RigidBody
  deriving Repr, DecidableEq

/-- Skeleton.read_from_buffer (data_frame.py lines 89-95). -/
def Skeleton.read (pv : Option Version) : ParseM Skeleton := do
  let id_num ← PacketBuffer.read_uint32
  let rigid_body_count ← PacketBuffer.read_uint32
  let rigid_bodies ← readCount rigid_body_count (RigidBody.read pv)
  pure ⟨id_num, rigid_bodies⟩

/-- LabeledMarker (data_frame.py lines 98-104). -/
structure LabeledMarker where
  id_num : Nat
  pos : List Nat
  size : Nat
  param : Option Nat
  residual : Option Nat
  deriving Repr, DecidableEq

/-- LabeledMarker.read_from_buffer (data_frame.py lines 106-124). -/
def LabeledMarker.read (pv : Option Version) : ParseM LabeledMarker := do
  let id_num ← PacketBuffer.read_uint32
  let pos ← PacketBuffer.read_float32_array 3
  let size ← PacketBuffer.read_float32
  -- Version 2.6 and later
  let ge26 ← mvge pv (Version.mk [2, 6])
  let param ← if ge26 then some <$> PacketBuffer.read_uint16 else ParseM.pure none
  -- Version 3.0 and later
  let ge3 ← mvge pv (Version.mk [3])
  let residual ← if ge3 then some <$> PacketBuffer.read_float32 else ParseM.pure none
  pure ⟨id_num, pos, size, param, residual⟩

/-- LabeledMarker.occluded (data_frame.py lines 134-136): bool(param & 0x01).
When param is None (wire version below 2.6) Python raises TypeError on
the bitwise operation. -/
def LabeledMarker.occluded (m : LabeledMarker) : Except PyErr Bool :=
  match m.param with
  | none => .error .typeError
  | some p => .ok ((p &&& 0x01) != 0)

/-- LabeledMarker.point_cloud_solved (data_frame.py lines 138-140). -/
def LabeledMarker.point_cloud_solved (m : LabeledMarker) : Except PyErr Bool :=
  match m.param with
  | none => .error .typeError
  | some p => .ok ((p &&& 0x02) != 0)

/-- LabeledMarker.model_solved (data_frame.py lines 142-144). -/
def LabeledMarker.model_solved (m : LabeledMarker) : Except PyErr Bool :=
  match m.param with
  | none => .error .typeError
  | some p => .ok ((p &&& 0x04) != 0)

/-- LabeledMarker.has_model (data_frame.py lines 146-148). -/
def LabeledMarker.has_model (m : LabeledMarker) : Except PyErr Bool :=
  match m.param with
  | none => .error .typeError
  | some p => .ok ((p &&& 0x08) != 0)

/-- LabeledMarker.unlabeled (data_frame.py lines 150-152). -/
def LabeledMarker.unlabeled (m : LabeledMarker) : Except PyErr Bool :=
  match m.param with
  | none => .error .typeError
  | some p => .ok ((p &&& 0x10) != 0)

/-- LabeledMarker.active (data_frame.py lines 154-156). -/
def LabeledMarker.active (m : LabeledMarker) : Except PyErr Bool :=
  match m.param with
  | none => .error .typeError
  | some p => .ok ((p &&& 0x20) != 0)

/-- ForcePlate (data_frame.py lines 159-162). -/
structure ForcePlate where
  id_num : Nat
  channel_arrays : List (List Nat)
  deriving Repr, DecidableEq

/-- ForcePlate.read_from_buffer (data_frame.py lines 164-169). -/
def ForcePlate.read (_pv : Option Version) : ParseM ForcePlate := do
  let id_num ← PacketBuffer.read_uint32
  let channel_count ← PacketBuffer.read_uint32
  let channel_arrays ← readCount channel_count (do
    let n ← PacketBuffer.read_uint32
    PacketBuffer.read_float32_array n)
  pure ⟨id_num, channel_arrays⟩

/-- Device (data_frame.py lines 172-175). -/
structure Device where
  id_num : Nat
  channel_arrays : List (List Nat)
  deriving Repr, DecidableEq

/-- Device.read_from_buffer (data_frame.py lines 177-182). -/
def Device.read (_pv : Option Version) : ParseM Device := do
  let id_num ← PacketBuffer.read_uint32
  let channel_count ← PacketBuffer.read_uint32
  let channel_arrays ← readCount channel_count (do
    let n ← PacketBuffer.read_uint32
    PacketBuffer.read_float32_array n)
  pure ⟨id_num, channel_arrays⟩

/-- FrameSuffix (data_frame.py lines 185-195); float timestamps are kept as
raw little-endian words. -/
structure FrameSuffix where
  timecode : Nat
  timecode_sub : Nat
  timestamp : Nat
  stamp_camera_mid_exposure : Option Nat
  stamp_data_received : Option Nat
  stamp_transmit : Option Nat
  param : Nat
  is_recording : Bool
  tracked_models_changed : Bool
  deriving Repr, DecidableEq

/-- FrameSuffix.read_from_buffer (data_frame.py lines 197-223). -/
def FrameSuffix.read (pv : Option Version) : ParseM FrameSuffix := do
  let timecode ← PacketBuffer.read_uint32
  let timecode_sub ← PacketBuffer.read_uint32
  -- Timestamp: double precision in 2.7 and later
  let ge27 ← mvge pv (Version.mk [2, 7])
  let timestamp ← if ge27 then PacketBuffer.read_float64 else PacketBuffer.read_float32
  -- Hires timestamps: version 3.0 and later
  let ge3 ← mvge pv (Version.mk [3])
  let stamps ←
    if ge3 then do
      let sc ← PacketBuffer.read_uint64
      let sd ← PacketBuffer.read_uint64
      let st ← PacketBuffer.read_uint64
      ParseM.pure (some sc, some sd, some st)
    else ParseM.pure ((none : Option Nat), (none : Option Nat), (none : Option Nat))
  let param ← PacketBuffer.read_uint16
  pure ⟨timecode, timecode_sub, timestamp, stamps.1, stamps.2.1, stamps.2.2, param,
    (param &&& 0x01) != 0, (param &&& 0x02) != 0⟩

/-- DataFrame (data_frame.py lines 226-236); every section is optional
because the reading loop stores None for a section whose minimum version
exceeds the wire version. The first field is named prefix in the source
(a reserved word here). -/
structure DataFrame where
  framePrefix : Option FramePrefix
  marker_sets : Option (List MarkerSet)
  unlabeled_marker_pos : Option (List (List Nat))
  rigid_bodies : Option (List RigidBody)
  skeletons : Option (List Skeleton)
  labeled_markers : Option (List LabeledMarker)
  force_plates : Option (List ForcePlate)
  devices : Option (List Device)
  suffix : Option FrameSuffix
  deriving Repr, DecidableEq

/-- Version gate of DataFrame.read_from_buffer (data_frame.py lines
254-268): when the minimum version of the field exceeds the wire version
the field is set to None and no bytes are consumed; otherwise the field
reader runs. -/
def readGated (pv : Option Version) (minv : Version) (p : ParseM α) : ParseM (Option α) := do
  let ge ← mvge pv minv
  if ge then some <$> p else ParseM.pure none

/-- DataFrame.read_from_buffer (data_frame.py lines 250-270). The source
iterates over the dataclass fields in declaration order, gating each on
MIN_VERSIONS (lines 238-248); a PacketComponent field delegates to its
reader, a tuple field reads a u32 count then that many elements (raw Vec3
for unlabeled_marker_pos, delegated components otherwise). The chain below
is that loop unrolled in the same declaration order. -/
def DataFrame.read (pv : Option Version) : ParseM DataFrame := do
  let framePrefix ← readGated pv (Version.mk [0]) (FramePrefix.read pv)
  let marker_sets ← readGated pv (Version.mk [0]) (do
    let n ← PacketBuffer.read_uint32
    readCount n (MarkerSet.read pv))
  let unlabeled_marker_pos ← readGated pv (Version.mk [0]) (do
    let n ← PacketBuffer.read_uint32
    readCount n (PacketBuffer.read_float32_array 3))
  let rigid_bodies ← readGated pv (Version.mk [0]) (do
    let n ← PacketBuffer.read_uint32
    readCount n (RigidBody.read pv))
  let skeletons ← readGated pv (Version.mk [2, 1]) (do
    let n ← PacketBuffer.read_uint32
    readCount n (Skeleton.read pv))
  let labeled_markers ← readGated pv (Version.mk [2, 3]) (do
    let n ← PacketBuffer.read_uint32
    readCount n (LabeledMarker.read pv))
  let force_plates ← readGated pv (Version.mk [2, 9]) (do
    let n ← PacketBuffer.read_uint32
    readCount n (ForcePlate.read pv))
  let devices ← readGated pv (Version.mk [2, 11]) (do
    let n ← PacketBuffer.read_uint32
    readCount n (Device.read pv))
  let suffix ← readGated pv (Version.mk [0]) (FrameSuffix.read pv)
  pure ⟨framePrefix, marker_sets, unlabeled_marker_pos, rigid_bodies, skeletons,
    labeled_markers, force_plates, devices, suffix⟩

/-! ## Description records and decoders (data_descriptions.py) -/

/-- MarkerSetDescription (data_descriptions.py lines 9-20). -/
structure MarkerSetDescription where
  name : List Nat
  marker_names : List (List Nat)
  deriving Repr, DecidableEq

/-- MarkerSetDescription.read_from_buffer (data_descriptions.py lines 14-20). -/
def MarkerSetDescription.read (_pv : Option Version) : ParseM MarkerSetDescription := do
  let name ← PacketBuffer.read_string none false
  let marker_count ← PacketBuffer.read_uint32
  let marker_names ← readCount marker_count (PacketBuffer.read_string none false)
  pure ⟨name, marker_names⟩

/-- RigidBodyMarkerDescription (data_descriptions.py lines 23-27). -/
structure RigidBodyMarkerDescription where
  name : Option (List Nat)
  active_label : Nat
  pos : List Nat
  deriving Repr, DecidableEq

/-- RigidBodyMarkerDescription.read_array_from_buffer (data_descriptions.py
lines 29-37): positions, then labels, then (at version 4 and later) names,
zipped into records. -/
def RigidBodyMarkerDescription.readArray (pv : Option Version) :
    ParseM (List RigidBodyMarkerDescription) := do
  let marker_count ← PacketBuffer.read_uint32
  let pos ← readCount marker_count (PacketBuffer.read_float32_array 3)
  let active_labels ← readCount marker_count PacketBuffer.read_uint32
  let ge4 ← mvge pv (Version.mk [4])
  let names ←
    if ge4 then do
      let ns ← readCount marker_count (PacketBuffer.read_string none false)
      ParseM.pure (ns.map some)
    else ParseM.pure (List.replicate marker_count (none : Option (List Nat)))
  pure ((names.zip (active_labels.zip pos)).map
    (fun x => RigidBodyMarkerDescription.mk x.1 x.2.1 x.2.2))

/-- RigidBodyDescription (data_descriptions.py lines 40-46). -/
structure RigidBodyDescription where
  name : Option (List Nat)
  id_num : Nat
  parent_id : Nat
  pos : List Nat
  markers : List RigidBodyMarkerDescription
  deriving Repr, DecidableEq

/-- RigidBodyDescription.read_from_buffer (data_descriptions.py lines 48-63). -/
def RigidBodyDescription.read (pv : Option Version) : ParseM RigidBodyDescription := do
  -- Version 2.0 or higher
  let ge2 ← mvge pv (Version.mk [2])
  let name ← if ge2 then some <$> PacketBuffer.read_string none false else ParseM.pure none
  let new_id ← PacketBuffer.read_uint32
  let parent_id ← PacketBuffer.read_uint32
  let pos ← PacketBuffer.read_float32_array 3
  -- Version 3.0 and higher: marker information in the description
  let ge3 ← mvge pv (Version.mk [3])
  let marker_descriptions ←
    if ge3 then RigidBodyMarkerDescription.readArray pv
    else ParseM.pure []
  pure ⟨name, new_id, parent_id, pos, marker_descriptions⟩

/-- SkeletonDescription (data_descriptions.py lines 66-70). -/
structure SkeletonDescription where
  name : List Nat
  id_num : Nat
  rigid_body_descriptions : List RigidBodyDescription
  deriving Repr, DecidableEq

/-- SkeletonDescription.read_from_buffer (data_descriptions.py lines 72-82). -/
def SkeletonDescription.read (pv : Option Version) : ParseM SkeletonDescription := do
  let name ← PacketBuffer.read_string none false
  let new_id ← PacketBuffer.read_uint32
  let rigid_body_count ← PacketBuffer.read_uint32
  let rigid_body_descs ← readCount rigid_body_count (RigidBodyDescription.read pv)
  pure ⟨name, new_id, rigid_body_descs⟩

/-- ForcePlateDescription (data_descriptions.py lines 85-96). -/
structure ForcePlateDescription where
  id_num : Nat
  serial_number : List Nat
  width : Nat
  length : Nat
  position : List Nat
  cal_matrix : List (List Nat)
  corners : List (List Nat)
  plate_type : Nat
  channel_data_type : Nat
  channel_list : List (List Nat)
  deriving Repr, DecidableEq

/-- Rows of a flat list: elements i * w to (i + 1) * w for i below h. -/
def chunkRows (flat : List Nat) (w h : Nat) : List (List Nat) :=
  (List.range h).map (fun i => (flat.drop (i * w)).take w)

/-- ForcePlateDescription.read_from_buffer (data_descriptions.py lines
98-123): at version 3 and later the full record, otherwise None without
consuming bytes. -/
def ForcePlateDescription.read (pv : Option Version) :
    ParseM (Option ForcePlateDescription) := do
  let ge3 ← mvge pv (Version.mk [3])
  if ge3 then do
    let new_id ← PacketBuffer.read_uint32
    let serial_number ← PacketBuffer.read_string none false
    let width ← PacketBuffer.read_float32
    let length ← PacketBuffer.read_float32
    let origin ← PacketBuffer.read_float32_array 3
    let cal_matrix_flat ← PacketBuffer.read_float32_array (12 * 12)
    let cal_matrix := chunkRows cal_matrix_flat 12 12
    let corners_flat ← PacketBuffer.read_float32_array (3 * 3)
    let corners := chunkRows corners_flat 3 3
    let plate_type ← PacketBuffer.read_uint32
    let channel_data_type ← PacketBuffer.read_uint32
    let num_channels ← PacketBuffer.read_uint32
    let channels ← readCount num_channels (PacketBuffer.read_string none false)
    ParseM.pure (some ⟨new_id, serial_number, width, length, origin, cal_matrix, corners,
      plate_type, channel_data_type, channels⟩)
  else ParseM.pure none

/-- DeviceDescription (data_descriptions.py lines 126-133). -/
structure DeviceDescription where
  id_num : Nat
  name : List Nat
  serial_number : List Nat
  device_type : Nat
  channel_data_type : Nat
  channel_names : List (List Nat)
  deriving Repr, DecidableEq

/-- DeviceDescription.read_from_buffer (data_descriptions.py lines 135-151). -/
def DeviceDescription.read (pv : Option Version) : ParseM (Option DeviceDescription) := do
  let ge3 ← mvge pv (Version.mk [3])
  if ge3 then do
    let new_id ← PacketBuffer.read_uint32
    let name ← PacketBuffer.read_string none false
    let serial_number ← PacketBuffer.read_string none false
    let device_type ← PacketBuffer.read_uint32
    let channel_data_type ← PacketBuffer.read_uint32
    let num_channels ← PacketBuffer.read_uint32
    let channel_names ← readCount num_channels (PacketBuffer.read_string none false)
    ParseM.pure (some ⟨new_id, name, serial_number, device_type, channel_data_type,
      channel_names⟩)
  else ParseM.pure none

/-- CameraDescription (data_descriptions.py lines 154-158). -/
structure CameraDescription where
  name : List Nat
  position : List Nat
  orientation_quat : List Nat
  deriving Repr, DecidableEq

/-- CameraDescription.read_from_buffer (data_descriptions.py lines 160-166). -/
def CameraDescription.read (_pv : Option Version) : ParseM CameraDescription := do
  let name ← PacketBuffer.read_string none false
  let position ← PacketBuffer.read_float32_array 3
  let orientation ← PacketBuffer.read_float32_array 4
  pure ⟨name, position, orientation⟩

/-- DataDescriptions (data_descriptions.py lines 169-175). The force-plate
and device decoders return None below version 3, and the loop appends
their (optional) result, so those two collections hold optional values. -/
structure DataDescriptions where
  marker_sets : List MarkerSetDescription
  rigid_bodies : List RigidBodyDescription
  skeletons : List SkeletonDescription
  force_plates : List (Option ForcePlateDescription)
  devices : List (Option DeviceDescription)
  cameras : List CameraDescription
  deriving Repr, DecidableEq

/-- One warning printed by the unknown-tag branch of
DataDescriptions.read_from_buffer (data_descriptions.py lines 197-198),
carrying the values interpolated into the message: the unknown tag, the
buffer pointer, the buffer length, the one-based item index and the
dataset count. -/
structure UnknownTagWarning where
  tag : Nat
  pointerPos : Nat
  bufLen : Nat
  itemIndex : Nat
  datasetCount : Nat
  deriving Repr, DecidableEq

/-- Loop of DataDescriptions.read_from_buffer (data_descriptions.py lines
190-198), recursing over the remaining iteration count. For each item the
u32 tag is read and dispatched; an unknown tag prints a warning and the
loop CONTINUES with the next item (the source has no break statement in
the else branch). Results accumulate per collection in arrival order. -/
def DataDescriptions.loop (pv : Option Version) (datasetCount : Nat) :
    (remaining : Nat) → DataDescriptions → List UnknownTagWarning →
    ParseM (DataDescriptions × List UnknownTagWarning)
  | 0, acc, warns => ParseM.pure (acc, warns)
  | rem + 1, acc, warns => do
    let data_type ← PacketBuffer.read_uint32
    let i := datasetCount - (rem + 1)
    match data_type with
    | 0 => do
      let d ← MarkerSetDescription.read pv
      DataDescriptions.loop pv datasetCount rem { acc with marker_sets := acc.marker_sets ++ [d] } warns
    | 1 => do
      let d ← RigidBodyDescription.read pv
      DataDescriptions.loop pv datasetCount rem { acc with rigid_bodies := acc.rigid_bodies ++ [d] } warns
    | 2 => do
      let d ← SkeletonDescription.read pv
      DataDescriptions.loop pv datasetCount rem { acc with skeletons := acc.skeletons ++ [d] } warns
    | 3 => do
      let d ← ForcePlateDescription.read pv
      DataDescriptions.loop pv datasetCount rem { acc with force_plates := acc.force_plates ++ [d] } warns
    | 4 => do
      let d ← DeviceDescription.read pv
      DataDescriptions.loop pv datasetCount rem { acc with devices := acc.devices ++ [d] } warns
    | 5 => do
      let d ← CameraDescription.read pv
      DataDescriptions.loop pv datasetCount rem { acc with cameras := acc.cameras ++ [d] } warns
    | tag => do
      let b ← ParseM.get
      DataDescriptions.loop pv datasetCount rem acc
        (warns ++ [UnknownTagWarning.mk tag b.pointer b.data.length (i + 1) datasetCount])

/-- DataDescriptions.read_from_buffer (data_descriptions.py lines 177-199):
read the u32 dataset count then run the dispatch loop; the warnings the
source prints are returned alongside the record. -/
def DataDescriptions.read (pv : Option Version) :
    ParseM (DataDescriptions × List UnknownTagWarning) := do
  let dataset_count ← PacketBuffer.read_uint32
  DataDescriptions.loop pv dataset_count dataset_count ⟨[], [], [], [], [], []⟩ []

/-! ## ServerInfo (server_info.py) -/

/-- ServerInfo (server_info.py lines 8-12). -/
structure ServerInfo where
  application_name : List Nat
  server_version : Version
  nat_net_protocol_version : Version
  deriving Repr, DecidableEq

/-- ServerInfo.read_from_buffer (server_info.py lines 14-19): a 256-byte
static string then two versions of four u8 components each (struct format
BBBB). The protocol-version argument is received but never used. -/
def ServerInfo.read (_pv : Option Version) : ParseM ServerInfo := do
  let application_name ← PacketBuffer.read_string (some 256) true
  let sv ← PacketBuffer.readBytes 4
  let nv ← PacketBuffer.readBytes 4
  pure ⟨application_name, ⟨sv⟩, ⟨nv⟩⟩

/-! ## Client send path, message dispatch and protocol-version setter
(nat_net_client.py) -/

/-- Message id constants of NatNetClient (nat_net_client.py lines 31-43). -/
def NAT_CONNECT : Nat := 0
def NAT_SERVERINFO : Nat := 1
def NAT_REQUEST : Nat := 2
def NAT_REQUEST_MODELDEF : Nat := 4
def NAT_MODELDEF : Nat := 5
def NAT_REQUEST_FRAMEOFDATA : Nat := 6
def NAT_FRAMEOFDATA : Nat := 7
def NAT_KEEPALIVE : Nat := 10

/-- Python int.to_bytes(2, byteorder="little"): two little-endian bytes,
OverflowError when the value needs more than two bytes. -/
def toBytesLE2 (n : Nat) : Except PyErr (List Nat) :=
  if n < 65536 then .ok [n % 256, n / 256] else .error .overflowError

/-- Payload forcing of NatNetClient.send_request (nat_net_client.py lines
158-161): REQUEST_MODELDEF, REQUEST_FRAMEOFDATA and KEEPALIVE force an
empty payload; CONNECT forces the payload Ping. -/
def forcedPayload (command : Nat) (command_str : List Nat) : List Nat :=
  let s1 := if command = NAT_REQUEST_MODELDEF ∨ command = NAT_REQUEST_FRAMEOFDATA ∨
      command = NAT_KEEPALIVE then [] else command_str
  if command = NAT_CONNECT then [80, 105, 110, 103] else s1

/-- Bytes built by NatNetClient.send_request (nat_net_client.py lines
157-170): the 2-byte little-endian command id, then a 2-byte little-endian
packet size computed as len(command_str) + 1 — the CHARACTER count of the
payload string, taken before UTF-8 encoding — then the UTF-8 encoded
payload and a single NUL byte. -/
def sendRequestBytes (command : Nat) (command_str : List Nat) : Except PyErr (List Nat) := do
  let cs := forcedPayload command command_str
  let packet_size := cs.length + 1
  let d1 ← toBytesLE2 command
  let d2 ← toBytesLE2 packet_size
  pure (d1 ++ d2 ++ utf8Encode cs ++ [0])

/-- Parse of the 4-byte request header and body on the receiving side:
u16 little-endian id, u16 little-endian size, then the remaining bytes. -/
def parseRequestBytes (bs : List Nat) : Option (Nat × Nat × List Nat) :=
  match bs with
  | b0 :: b1 :: b2 :: b3 :: rest => some (b0 + 256 * b1, b2 + 256 * b3, rest)
  | _ => none

deriving instance DecidableEq for Except

/-- Result of NatNetClient.__process_message (nat_net_client.py lines
139-156) on one datagram: the warnings printed before any exception, and
either the raised Python exception or the new protocol-version state plus
the payload delivered to the frame / description events (if any). -/
structure ProcessResult where
  warnings : List String
  outcome : Except PyErr (Option Version × Option DataFrame × Option DataDescriptions)
  deriving Repr, DecidableEq

/-- NatNetClient.__process_message (nat_net_client.py lines 139-156).
Reads the u16 message id and u16 declared packet size, warns on a size
mismatch, then dispatches: SERVERINFO updates the protocol version;
otherwise a warning is printed when the protocol version is still None
(the source then FALLS THROUGH: there is no return or else, so a
FRAMEOFDATA or MODELDEF packet is still decoded, with None as the
protocol version). Warnings that the dispatched DataDescriptions decoder
prints are part of its returned value and are appended on success. -/
def processMessage (current : Option Version) (data : List Nat) : ProcessResult :=
  match (do
      let message_id ← PacketBuffer.read_uint16
      let packet_size ← PacketBuffer.read_uint16
      ParseM.pure (message_id, packet_size) : ParseM (Nat × Nat)) ⟨data, 0⟩ with
  | .error e => ⟨[], .error e⟩
  | .ok ((message_id, packet_size), buf) =>
    let sizeWarnings :=
      if data.length - 4 ≠ packet_size then
        ["Warning: actual packet size not consistent with packet size in the header"]
      else []
    if message_id = NAT_SERVERINFO then
      match ServerInfo.read current buf with
      | .error e => ⟨sizeWarnings, .error e⟩
      | .ok (si, _) => ⟨sizeWarnings, .ok (some si.nat_net_protocol_version, none, none)⟩
    else
      let dropWarnings :=
        if current = none then
          ["Warning: dropping packet as server info has not been received yet."]
        else []
      let warnings := sizeWarnings ++ dropWarnings
      if message_id = NAT_FRAMEOFDATA then
        match DataFrame.read current buf with
        | .error e => ⟨warnings, .error e⟩
        | .ok (df, _) => ⟨warnings, .ok (current, some df, none)⟩
      else if message_id = NAT_MODELDEF then
        match DataDescriptions.read current buf with
        | .error e => ⟨warnings, .error e⟩
        | .ok ((dd, ddWarns), _) =>
          ⟨warnings ++ ddWarns.map (fun _ => "Type unknown. Stopped processing."),
            .ok (current, none, some dd)⟩
      else ⟨warnings, .ok (current, none, none)⟩

/-- Errors raised by the protocol-version setter (nat_net_client.py lines
271-286, NatNetProtocolError). -/
inductive ProtocolSetError where
  | changeNotSupported
  | setVersionFailed
  deriving Repr, DecidableEq

/-- Result of the protocol-version setter: the protocol version after the
call, the command strings passed to send_command in order, and the raised
error, if any. -/
structure SetVersionResult where
  finalVersion : Version
  sent : List String
  err : Option ProtocolSetError
  deriving Repr, DecidableEq

/-- NatNetClient.protocol_version setter (nat_net_client.py lines 270-286).
The can_change_protocol_version property and the return code of
send_command come from the environment (server info and socket) and enter
as parameters. The requested version is truncated to two components; when
(redundantly re-checking can_change) it differs from the truncated current
version, the Bitstream command is sent; a negative return code raises
after the send, leaving the version unchanged; otherwise the version is
updated and the fixed recovery command sequence is sent. -/
def setProtocolVersion (canChange : Bool) (current desired : Version)
    (returnCode : Int) : SetVersionResult :=
  if ¬ canChange then ⟨current, [], some .changeNotSupported⟩
  else
    let desired2 := desired.truncate 2
    if canChange ∧ Version.ne desired2 (current.truncate 2) then
      let szCommand := "Bitstream," ++ desired2.str
      if returnCode ≥ 0 then
        ⟨desired2, [szCommand, "TimelinePlay", "TimelinePlay", "TimelineStop",
          "SetPlaybackCurrentFrame,0", "TimelineStop"], none⟩
      else
        ⟨current, [szCommand], some .setVersionFailed⟩
    else ⟨current, [], none⟩

/-! ## Helper lemmas about the parser monad -/

theorem ParseM.bind_ok_iff (p : ParseM α) (f : α → ParseM β) (s : PacketBuffer)
    (r : β × PacketBuffer) :
    (p >>= f) s = .ok r ↔ ∃ a s2, p s = .ok (a, s2) ∧ f a s2 = .ok r := by
  show ParseM.bind p f s = .ok r ↔ _
  unfold ParseM.bind
  cases hp : p s with
  | error e => simp
  | ok pair =>
    cases pair with
    | mk a s2 =>
      constructor
      · intro h
        exact ⟨a, s2, rfl, h⟩
      · rintro ⟨a2, s3, he, h2⟩
        cases he
        exact h2

theorem ParseM.pure_ok_iff (a : α) (s : PacketBuffer) (r : α × PacketBuffer) :
    (Pure.pure a : ParseM α) s = .ok r ↔ r = (a, s) := by
  show ParseM.pure a s = .ok r ↔ _
  unfold ParseM.pure
  constructor
  · intro h
    cases h
    rfl
  · intro h
    rw [h]

theorem mvge_some (v w : Version) (s : PacketBuffer) :
    mvge (some v) w s = .ok (Version.ge v w, s) := rfl

theorem ParseM.run_bind (p : ParseM α) (f : α → ParseM β) (s : PacketBuffer) :
    (p >>= f) s = match p s with
      | .ok (a, s2) => f a s2
      | .error e => .error e := rfl

theorem ParseM.run_pure (a : α) (s : PacketBuffer) :
    (Pure.pure a : ParseM α) s = .ok (a, s) := rfl

theorem ParseM.run_pureP (a : α) (s : PacketBuffer) :
    ParseM.pure a s = .ok (a, s) := rfl

theorem ParseM.run_map (f : α → β) (p : ParseM α) (s : PacketBuffer) :
    (f <$> p) s = match p s with
      | .ok (a, s2) => .ok (f a, s2)
      | .error e => .error e := rfl

theorem ParseM.map_ok_iff (f : α → β) (p : ParseM α) (s : PacketBuffer)
    (r : β × PacketBuffer) :
    (f <$> p) s = .ok r ↔ ∃ a s2, p s = .ok (a, s2) ∧ r = (f a, s2) := by
  rw [ParseM.run_map]
  cases hp : p s with
  | error e => simp
  | ok pair =>
    cases pair with
    | mk a s2 =>
      constructor
      · intro h
        cases h
        exact ⟨a, s2, rfl, rfl⟩
      · rintro ⟨a2, s3, he, hr⟩
        cases he
        rw [hr]

/-- Running the version gate at a known version: when the version is at
least the minimum the field reader runs, otherwise the result is none on
the untouched state (no bytes consumed). -/
theorem readGated_some_run (v minv : Version) (p : ParseM α) (s : PacketBuffer) :
    readGated (some v) minv p s =
      if Version.ge v minv then (some <$> p) s else .ok (none, s) := by
  show (mvge (some v) minv >>= fun ge => if ge then some <$> p else ParseM.pure none) s = _
  rw [ParseM.run_bind, mvge_some]
  cases hge : Version.ge v minv <;> simp [hge, ParseM.run_pureP]

/-! ## Claim C1 -/

/-- Claim C1 is false of the code: Version.__compare zero-pads into local
variables but then zips the original unpadded tuples, so only the common
prefix is compared and the relation is not transitive. At the concrete
versions a = Version(1,5), b = Version(1), c = Version(1,2) the code gives
a ≤ b and b ≤ c but not a ≤ c (while the equality half of the claim,
Version(1) == Version(1,0,0,0), does hold). -/
theorem c1_version_le_not_transitive :
    Version.le ⟨[1, 5]⟩ ⟨[1]⟩ = true ∧
    Version.le ⟨[1]⟩ ⟨[1, 2]⟩ = true ∧
    Version.le ⟨[1, 5]⟩ ⟨[1, 2]⟩ = false ∧
    Version.eq ⟨[1]⟩ ⟨[1, 0, 0, 0]⟩ = true := by
  refine ⟨?_, ?_, ?_, ?_⟩ <;> rfl

/-! ## Claim C9 -/

/-- Counterexample to claim C9: truncate clamps like a Python slice, so
truncating the one-component Version(1) to length 3 yields a version of
length 1, not 3. -/
theorem c9_truncate_shorter_counterexample :
    ((Version.mk [1]).truncate 3).components.length = 1 ∧ (1 : Nat) ≠ 3 := by
  exact ⟨rfl, by decide⟩

/-- Claim C9 amended: truncate(k) yields a version of length
min(k, number of components). -/
theorem c9_truncate_length_min (v : Version) (k : Nat) :
    ((v.truncate k).components.length = min k v.components.length) := by
  simp [Version.truncate]

/-! ## Claim C4 -/

/-- Helper: a typed byte read that would pass the end of the data raises
struct.error (struct.unpack_from checks the remaining length first). -/
theorem readBytes_overrun (size : Nat) (b : PacketBuffer)
    (h : b.data.length < b.pointer + size) :
    PacketBuffer.readBytes size b = .error .structError := by
  unfold PacketBuffer.readBytes
  rw [if_neg]
  omega

/-- Counterexample to claim C4: read_string(4, static=true) on a buffer
holding only the two bytes AB would overrun (4 bytes nominal width against
2 remaining), yet it raises no error and performs a partial read, leaving
the cursor at 4, past the end of the data. -/
theorem c4_read_string_overrun_counterexample :
    (⟨[65, 66], 0⟩ : PacketBuffer).data.length < 0 + 4 ∧
    PacketBuffer.read_string (some 4) true ⟨[65, 66], 0⟩ =
      .ok ([65, 66], ⟨[65, 66], 4⟩) :=
  ⟨by decide, rfl⟩

/-- Claim C4 amended: the TYPED reads (read, read_uint16/32/64,
read_float32/64) raise struct.error whenever the read would pass the end
of the byte view, and perform no partial read (no value, cursor state
discarded). The read_string variants never treat an overrun as an error:
the window is silently clamped to the available bytes (their only error
is a UTF-8 decode failure), and with static_length=true the cursor
advances by exactly max_length even when that passes the end. -/
theorem c4_reads_overrun_amended :
    (∀ (size : Nat) (b : PacketBuffer), b.data.length < b.pointer + size →
        PacketBuffer.readBytes size b = .error .structError)
  ∧ (∀ (b : PacketBuffer), b.data.length < b.pointer + 2 →
        PacketBuffer.read_uint16 b = .error .structError)
  ∧ (∀ (b : PacketBuffer), b.data.length < b.pointer + 4 →
        PacketBuffer.read_uint32 b = .error .structError)
  ∧ (∀ (b : PacketBuffer), b.data.length < b.pointer + 8 →
        PacketBuffer.read_uint64 b = .error .structError)
  ∧ (∀ (b : PacketBuffer), b.data.length < b.pointer + 4 →
        PacketBuffer.read_float32 b = .error .structError)
  ∧ (∀ (b : PacketBuffer), b.data.length < b.pointer + 8 →
        PacketBuffer.read_float64 b = .error .structError)
  ∧ (∀ (m : Nat) (st : Bool) (b : PacketBuffer) (cs : List Nat) (b2 : PacketBuffer),
        PacketBuffer.read_string (some m) st b = .ok (cs, b2) →
        b2.data = b.data ∧ (st = true → b2.pointer = b.pointer + m))
  ∧ (∀ (m : Nat) (st : Bool) (b : PacketBuffer) (e : PyErr),
        PacketBuffer.read_string (some m) st b = .error e → e = .unicodeDecodeError) := by
  refine ⟨readBytes_overrun, ?_, ?_, ?_, ?_, ?_, ?_, ?_⟩
  · intro b h
    show (PacketBuffer.readBytes 2 >>= fun bs => Pure.pure (leVal bs)) b = _
    rw [ParseM.run_bind, readBytes_overrun 2 b h]
  · intro b h
    show (PacketBuffer.readBytes 4 >>= fun bs => Pure.pure (leVal bs)) b = _
    rw [ParseM.run_bind, readBytes_overrun 4 b h]
  · intro b h
    show (PacketBuffer.readBytes 8 >>= fun bs => Pure.pure (leVal bs)) b = _
    rw [ParseM.run_bind, readBytes_overrun 8 b h]
  · intro b h
    show (PacketBuffer.readBytes 4 >>= fun bs => Pure.pure (leVal bs)) b = _
    rw [ParseM.run_bind, readBytes_overrun 4 b h]
  · intro b h
    show (PacketBuffer.readBytes 8 >>= fun bs => Pure.pure (leVal bs)) b = _
    rw [ParseM.run_bind, readBytes_overrun 8 b h]
  · intro m st b cs b2 h
    cases st with
    | true =>
      rw [show PacketBuffer.read_string (some m) true b =
          (match utf8Decode (takeUntilNul ((b.data.drop b.pointer).take m)) with
           | none => Except.error PyErr.unicodeDecodeError
           | some strDec => Except.ok (strDec, { b with pointer := b.pointer + m }))
          from rfl] at h
      cases hdec : utf8Decode (takeUntilNul ((b.data.drop b.pointer).take m)) with
      | none => rw [hdec] at h; cases h
      | some strDec =>
        rw [hdec] at h
        cases h
        exact ⟨rfl, fun _ => rfl⟩
    | false =>
      rw [show PacketBuffer.read_string (some m) false b =
          (match utf8Decode (takeUntilNul ((b.data.drop b.pointer).take m)) with
           | none => Except.error PyErr.unicodeDecodeError
           | some strDec => Except.ok (strDec,
               { b with pointer :=
                   b.pointer + (takeUntilNul ((b.data.drop b.pointer).take m)).length + 1 }))
          from rfl] at h
      cases hdec : utf8Decode (takeUntilNul ((b.data.drop b.pointer).take m)) with
      | none => rw [hdec] at h; cases h
      | some strDec =>
        rw [hdec] at h
        cases h
        exact ⟨rfl, fun hf => by cases hf⟩
  · intro m st b e h
    cases st with
    | true =>
      rw [show PacketBuffer.read_string (some m) true b =
          (match utf8Decode (takeUntilNul ((b.data.drop b.pointer).take m)) with
           | none => Except.error PyErr.unicodeDecodeError
           | some strDec => Except.ok (strDec, { b with pointer := b.pointer + m }))
          from rfl] at h
      cases hdec : utf8Decode (takeUntilNul ((b.data.drop b.pointer).take m)) with
      | none => rw [hdec] at h; cases h; rfl
      | some strDec => rw [hdec] at h; cases h
    | false =>
      rw [show PacketBuffer.read_string (some m) false b =
          (match utf8Decode (takeUntilNul ((b.data.drop b.pointer).take m)) with
           | none => Except.error PyErr.unicodeDecodeError
           | some strDec => Except.ok (strDec,
               { b with pointer :=
                   b.pointer + (takeUntilNul ((b.data.drop b.pointer).take m)).length + 1 }))
          from rfl] at h
      cases hdec : utf8Decode (takeUntilNul ((b.data.drop b.pointer).take m)) with
      | none => rw [hdec] at h; cases h; rfl
      | some strDec => rw [hdec] at h; cases h

/-- Witness for the amended claim C4 at concrete inputs: a 4-byte typed
read on a 2-byte buffer errors, and a clamped static string read reports
the advanced cursor the theorem predicts. -/
theorem c4_reads_overrun_amended_witness :
    PacketBuffer.readBytes 4 ⟨[65, 66], 0⟩ = .error .structError ∧
    ((⟨[65, 66], 4⟩ : PacketBuffer).data = (⟨[65, 66], 0⟩ : PacketBuffer).data ∧
      (true = true → (4 : Nat) = 0 + 4)) :=
  ⟨c4_reads_overrun_amended.1 4 ⟨[65, 66], 0⟩ (by decide),
   c4_reads_overrun_amended.2.2.2.2.2.2.1 4 true ⟨[65, 66], 0⟩ [65, 66] ⟨[65, 66], 4⟩ rfl⟩

/-! ## Claim C5 -/

/-- Counterexample to claim C5: with one byte remaining and n = 1, the
byte 0xFF is not valid UTF-8, so read_string(1, static=true) raises
UnicodeDecodeError instead of returning a decoded string and advancing. -/
theorem c5_read_string_invalid_utf8_counterexample :
    0 + 1 ≤ ([255] : List Nat).length ∧
    PacketBuffer.read_string (some 1) true ⟨[255], 0⟩ = .error .unicodeDecodeError :=
  ⟨by decide, rfl⟩

/-- Claim C5 amended: for every n and buffer with at least n bytes
remaining WHOSE pre-NUL window bytes are valid UTF-8, read_string(n,
static=true) advances the cursor by exactly n and returns the decoding of
the bytes of the n-byte window that precede its first NUL (on invalid
UTF-8 it raises UnicodeDecodeError instead, without advancing). -/
theorem c5_read_string_static_amended :
    ∀ (n : Nat) (b : PacketBuffer) (cs : List Nat),
      b.pointer + n ≤ b.data.length →
      utf8Decode (takeUntilNul ((b.data.drop b.pointer).take n)) = some cs →
      PacketBuffer.read_string (some n) true b =
        .ok (cs, { b with pointer := b.pointer + n }) := by
  intro n b cs _ hdec
  rw [show PacketBuffer.read_string (some n) true b =
      (match utf8Decode (takeUntilNul ((b.data.drop b.pointer).take n)) with
       | none => Except.error PyErr.unicodeDecodeError
       | some strDec => Except.ok (strDec, { b with pointer := b.pointer + n }))
      from rfl]
  rw [hdec]

/-- Witness for the amended claim C5: reading 4 static bytes from the
buffer AB NUL CD returns the decoding AB and leaves the cursor at 4. -/
theorem c5_read_string_static_amended_witness :
    0 + 4 ≤ ([65, 66, 0, 67, 68] : List Nat).length ∧
    PacketBuffer.read_string (some 4) true ⟨[65, 66, 0, 67, 68], 0⟩ =
      .ok ([65, 66], ⟨[65, 66, 0, 67, 68], 0 + 4⟩) :=
  ⟨by decide, c5_read_string_static_amended 4 ⟨[65, 66, 0, 67, 68], 0⟩ [65, 66]
    (by decide) rfl⟩

/-! ## Claim C6 -/

/-- Counterexample to claim C6: send_request computes the size field from
len(command_str) BEFORE UTF-8 encoding. For the one-character payload
U+00E9 (two UTF-8 bytes 0xC3 0xA9) the produced packet carries size field
2, but the byte length of the encoded payload plus 1 is 3. -/
theorem c6_size_field_counterexample :
    sendRequestBytes NAT_REQUEST [233] = .ok [2, 0, 2, 0, 195, 169, 0] ∧
    parseRequestBytes [2, 0, 2, 0, 195, 169, 0] = some (2, 2, [195, 169, 0]) ∧
    (utf8Encode (forcedPayload NAT_REQUEST [233])).length + 1 = 3 ∧
    (2 : Nat) ≠ 3 :=
  ⟨rfl, rfl, rfl, by decide⟩

/-- Claim C6 amended: the bytes produced by the send path parse back as a
u16 little-endian id, a u16 little-endian body-length equal to the
CHARACTER count of the (forced) payload plus 1 — which equals the byte
length of the encoded payload plus 1 only when the payload is ASCII — and
the UTF-8 payload followed by a single NUL; for the ids REQUEST_MODELDEF,
REQUEST_FRAMEOFDATA and KEEPALIVE the payload is forced empty, and for
CONNECT it is forced to Ping. -/
theorem c6_send_request_amended :
    (∀ (command : Nat) (command_str : List Nat) (bs : List Nat),
        sendRequestBytes command command_str = .ok bs →
        parseRequestBytes bs =
          some (command, (forcedPayload command command_str).length + 1,
            utf8Encode (forcedPayload command command_str) ++ [0]))
  ∧ (∀ command_str : List Nat,
        forcedPayload NAT_REQUEST_MODELDEF command_str = [] ∧
        forcedPayload NAT_REQUEST_FRAMEOFDATA command_str = [] ∧
        forcedPayload NAT_KEEPALIVE command_str = [])
  ∧ (∀ command_str : List Nat,
        forcedPayload NAT_CONNECT command_str = [80, 105, 110, 103]) := by
  refine ⟨?_, ?_, ?_⟩
  · intro command command_str bs h
    unfold sendRequestBytes toBytesLE2 at h
    dsimp only at h
    by_cases hc : command < 65536
    · rw [if_pos hc] at h
      by_cases hp : (forcedPayload command command_str).length + 1 < 65536
      · rw [if_pos hp] at h
        have h2 : (Except.ok ([command % 256, command / 256] ++
            [((forcedPayload command command_str).length + 1) % 256,
             ((forcedPayload command command_str).length + 1) / 256] ++
            utf8Encode (forcedPayload command command_str) ++ [0]) :
            Except PyErr (List Nat)) = Except.ok bs := h
        cases h2
        show parseRequestBytes (command % 256 :: command / 256 ::
          ((forcedPayload command command_str).length + 1) % 256 ::
          ((forcedPayload command command_str).length + 1) / 256 ::
          (utf8Encode (forcedPayload command command_str) ++ [0])) = _
        unfold parseRequestBytes
        dsimp only
        rw [Nat.mod_add_div, Nat.mod_add_div]
      · rw [if_neg hp] at h
        cases h
    · rw [if_neg hc] at h
      cases h
  · intro command_str
    exact ⟨rfl, rfl, rfl⟩
  · intro command_str
    rfl

/-- Witness for the amended claim C6: the packet for id 2 with the ASCII
payload A parses back as id 2, size 2, body A NUL. -/
theorem c6_send_request_amended_witness :
    parseRequestBytes [2, 0, 2, 0, 65, 0] = some (2, 2, [65, 0]) :=
  c6_send_request_amended.1 2 [65] [2, 0, 2, 0, 65, 0] rfl

/-! ## Claim C2 -/

/-- Claim C2 is false of the code: the unknown-tag branch of
DataDescriptions.read_from_buffer prints a Stopped-processing warning but
contains no break, so the loop continues with the remaining items. On a
buffer with dataset_count = 2 whose first item has the unknown tag 99 and
whose second item is a camera (tag 5, name A, seven zero floats), the
decode emits the warning for the first item and then still decodes the
second item: the returned cameras collection holds an item that came
AFTER the unknown tag, where the claim requires processing to stop with
only the items decoded before it. -/
theorem c2_unknown_tag_does_not_stop :
    DataDescriptions.read (some ⟨[3, 0, 0, 0]⟩)
        ⟨[2, 0, 0, 0, 99, 0, 0, 0, 5, 0, 0, 0, 65, 0] ++ List.replicate 28 0, 0⟩ =
      .ok ((DataDescriptions.mk [] [] [] [] []
          [CameraDescription.mk [65] [0, 0, 0] [0, 0, 0, 0]],
        [UnknownTagWarning.mk 99 8 42 1 2]),
        ⟨[2, 0, 0, 0, 99, 0, 0, 0, 5, 0, 0, 0, 65, 0] ++ List.replicate 28 0, 42⟩) := by
  rfl

/-! ## Claim C3 -/

/-- Claim C3 is false of the code: __process_message prints the dropping
warning when no SERVERINFO has been received, but then falls through (no
return and no else) and still dispatches on the message id, so a
FRAMEOFDATA packet is decoded with protocol version None; the first
version comparison inside DataFrame.read_from_buffer then raises
TypeError, which escapes to the caller. At the concrete 4-byte
FRAMEOFDATA packet (id 7, declared size 0) with no protocol version set,
the result is the single warning followed by an escaping TypeError — not
a silent drop. -/
theorem c3_frameofdata_before_serverinfo_raises :
    processMessage none [7, 0, 0, 0] =
      ⟨["Warning: dropping packet as server info has not been received yet."],
        .error .typeError⟩ := by
  rfl

/-! ## Claim C7 -/

/-- Claim C7: the protocol-version setter truncates the requested version
to (at most) two components; it sends the Bitstream command exactly when
the truncated request differs (under the source comparison) from the
truncated current version, with the dotted major.minor rendering whenever
the request has at least two components; on a negative return code it
raises the protocol error after sending only the Bitstream command and
leaves the current version unchanged; on a non-negative return code it
stores the truncated version and sends the recovery sequence. -/
theorem c7_protocol_version_setter (current desired : Version) (rc : Int) :
    ((desired.truncate 2).components.length ≤ 2)
  ∧ (Version.ne (desired.truncate 2) (current.truncate 2) = false →
      setProtocolVersion true current desired rc =
        ⟨current, [], none⟩)
  ∧ (Version.ne (desired.truncate 2) (current.truncate 2) = true →
      (rc < 0 →
        setProtocolVersion true current desired rc =
          ⟨current, ["Bitstream," ++ (desired.truncate 2).str],
            some .setVersionFailed⟩)
    ∧ (0 ≤ rc →
        setProtocolVersion true current desired rc =
          ⟨desired.truncate 2,
            ["Bitstream," ++ (desired.truncate 2).str, "TimelinePlay", "TimelinePlay",
             "TimelineStop", "SetPlaybackCurrentFrame,0", "TimelineStop"], none⟩))
  ∧ (∀ (c0 c1 : Nat) (rest : List Nat), desired.components = c0 :: c1 :: rest →
      (desired.truncate 2).str = Nat.repr c0 ++ "." ++ Nat.repr c1) := by
  refine ⟨?_, ?_, ?_, ?_⟩
  · simp only [Version.truncate, List.length_take]
    omega
  · intro hne
    unfold setProtocolVersion
    rw [if_neg (by simp), if_neg (by simp [hne])]
  · intro hne
    constructor
    · intro hrc
      unfold setProtocolVersion
      rw [if_neg (by simp), if_pos (by simp [hne]), if_neg (by omega)]
    · intro hrc
      unfold setProtocolVersion
      rw [if_neg (by simp), if_pos (by simp [hne]), if_pos (by omega)]
  · intro c0 c1 rest hcomp
    have ht : desired.truncate 2 = ⟨[c0, c1]⟩ := by
      simp [Version.truncate, hcomp]
    rw [ht]
    rfl

/-- Witness for claim C7: with current version 4.0.0.0 and requested
version 3.1, a negative return code leaves the version at 4.0.0.0 after
sending only the Bitstream command and raises the protocol error. -/
theorem c7_protocol_version_setter_witness :
    setProtocolVersion true ⟨[4, 0, 0, 0]⟩ ⟨[3, 1]⟩ (-1) =
      ⟨⟨[4, 0, 0, 0]⟩, ["Bitstream,3.1"], some .setVersionFailed⟩ :=
  ((c7_protocol_version_setter ⟨[4, 0, 0, 0]⟩ ⟨[3, 1]⟩ (-1)).2.2.1 (by decide)).1
    (by decide)

/-! ## Claims C8 and C10 -/

theorem ParseM.pureP_ok_iff (a : α) (s : PacketBuffer) (r : α × PacketBuffer) :
    ParseM.pure a s = .ok r ↔ r = (a, s) := by
  unfold ParseM.pure
  constructor
  · intro h
    cases h
    rfl
  · intro h
    rw [h]

/-- Helper: a gated section whose minimum version exceeds the wire version
yields none and leaves the buffer untouched. -/
theorem readGated_skip (v minv : Version) (p : ParseM α) (s : PacketBuffer)
    (hge : Version.ge v minv = false) :
    readGated (some v) minv p s = .ok (none, s) := by
  rw [readGated_some_run, hge, if_neg (by simp)]

/-- Helper: on any successful run of a gated section, the resulting value
is none exactly when the wire version is below the minimum. -/
theorem readGated_ok_none_iff (v minv : Version) (p : ParseM α) (s : PacketBuffer)
    (a : Option α) (s2 : PacketBuffer)
    (h : readGated (some v) minv p s = .ok (a, s2)) :
    (a = none ↔ Version.ge v minv = false) := by
  rw [readGated_some_run] at h
  cases hge : Version.ge v minv with
  | true =>
    rw [hge, if_pos rfl, ParseM.map_ok_iff] at h
    obtain ⟨x, s3, hp, hr⟩ := h
    cases hr
    simp
  | false =>
    rw [hge, if_neg (by simp)] at h
    cases h
    simp

/-- Claim C8: in every successful DataFrame decode, each version-gated
section (skeletons at 2.1, labeled_markers at 2.3, force_plates at 2.9,
devices at 2.11) is the absent sentinel none exactly when the wire
version is below the section minimum (under the source comparison), and a
section below its minimum consumes no bytes: the gate returns none on the
unchanged buffer state. The sections are read in the declaration order of
the chain in DataFrame.read. -/
theorem c8_dataframe_version_gating :
    (∀ (v : Version) (b b2 : PacketBuffer) (df : DataFrame),
        DataFrame.read (some v) b = .ok (df, b2) →
          ((df.skeletons = none ↔ Version.ge v (Version.mk [2, 1]) = false)
         ∧ (df.labeled_markers = none ↔ Version.ge v (Version.mk [2, 3]) = false)
         ∧ (df.force_plates = none ↔ Version.ge v (Version.mk [2, 9]) = false)
         ∧ (df.devices = none ↔ Version.ge v (Version.mk [2, 11]) = false)))
  ∧ (∀ (α : Type) (v minv : Version) (p : ParseM α) (s : PacketBuffer),
        Version.ge v minv = false → readGated (some v) minv p s = .ok (none, s)) := by
  constructor
  · intro v b b2 df h
    simp only [DataFrame.read, ParseM.bind_ok_iff, ParseM.pure_ok_iff,
      Except.ok.injEq, Prod.mk.injEq] at h
    obtain ⟨a1, s1, hg1, a2, s2, hg2, a3, s3, hg3, a4, s4, hg4, a5, s5, hg5,
      a6, s6, hg6, a7, s7, hg7, a8, s8, hg8, a9, s9, hg9, hm, hb⟩ := h
    rw [hm]
    exact ⟨readGated_ok_none_iff _ _ _ _ _ _ hg5, readGated_ok_none_iff _ _ _ _ _ _ hg6,
      readGated_ok_none_iff _ _ _ _ _ _ hg7, readGated_ok_none_iff _ _ _ _ _ _ hg8⟩
  · intro α v minv p s hge
    exact readGated_skip v minv p s hge

/-- Witness for claim C8 at wire version 2.0.0.0 on a concrete 30-byte
frame (empty marker sets, empty unlabeled markers, empty rigid bodies):
the decode succeeds, the four gated sections are absent, and the
skeletons gate consumes no bytes. -/
theorem c8_dataframe_version_gating_witness :
    ((DataFrame.mk (some ⟨0⟩) (some []) (some []) (some []) none none none none
        (some ⟨0, 0, 0, none, none, none, 0, false, false⟩)).skeletons = none
      ↔ Version.ge ⟨[2, 0, 0, 0]⟩ (Version.mk [2, 1]) = false) ∧
    readGated (some ⟨[2, 0, 0, 0]⟩) (Version.mk [2, 1])
        (FramePrefix.read (some ⟨[2, 0, 0, 0]⟩)) ⟨List.replicate 30 0, 14⟩ =
      .ok (none, ⟨List.replicate 30 0, 14⟩) :=
  ⟨(c8_dataframe_version_gating.1 ⟨[2, 0, 0, 0]⟩ ⟨List.replicate 30 0, 0⟩
      ⟨List.replicate 30 0, 30⟩ _ rfl).1,
   c8_dataframe_version_gating.2 FramePrefix (⟨[2, 0, 0, 0]⟩ : Version)
     (Version.mk [2, 1]) (FramePrefix.read (some ⟨[2, 0, 0, 0]⟩))
     ⟨List.replicate 30 0, 14⟩ (by decide)⟩

/-- Claim C10: a LabeledMarker decoded at a wire version below 2.6 has
param = None, and each of the six derived flag properties raises
TypeError (None has no bitwise and) instead of returning a boolean. -/
theorem c10_labeled_marker_flags_raise :
    ∀ (v : Version) (b b2 : PacketBuffer) (m : LabeledMarker),
      Version.ge v (Version.mk [2, 6]) = false →
      LabeledMarker.read (some v) b = .ok (m, b2) →
      m.param = none ∧
      m.occluded = .error .typeError ∧
      m.point_cloud_solved = .error .typeError ∧
      m.model_solved = .error .typeError ∧
      m.has_model = .error .typeError ∧
      m.unlabeled = .error .typeError ∧
      m.active = .error .typeError := by
  intro v b b2 m hge h
  suffices hp : m.param = none by
    refine ⟨hp, ?_, ?_, ?_, ?_, ?_, ?_⟩ <;>
      simp [LabeledMarker.occluded, LabeledMarker.point_cloud_solved,
        LabeledMarker.model_solved, LabeledMarker.has_model,
        LabeledMarker.unlabeled, LabeledMarker.active, hp]
  simp only [LabeledMarker.read, ParseM.bind_ok_iff, ParseM.pure_ok_iff, mvge_some,
    Except.ok.injEq, Prod.mk.injEq] at h
  obtain ⟨id1, s1, h1, pos1, s2a, h2, size1, s3, h3, ge26, s4, ⟨hge26, hs⟩, hrest⟩ := h
  subst hs
  rw [hge] at hge26
  subst hge26
  rw [if_neg (by simp)] at hrest
  simp only [ParseM.bind_ok_iff, ParseM.pureP_ok_iff, ParseM.pure_ok_iff, mvge_some,
    Except.ok.injEq, Prod.mk.injEq] at hrest
  obtain ⟨p1, s5, ⟨hp1, hs5⟩, ge3, s6, ⟨hge3, hs6⟩, hfin⟩ := hrest
  subst hp1
  subst hs5
  subst hs6
  subst hge3
  cases hg3 : Version.ge v ⟨[3]⟩ with
  | true =>
    rw [hg3, if_pos rfl] at hfin
    simp only [ParseM.bind_ok_iff, ParseM.map_ok_iff, ParseM.pure_ok_iff, ParseM.pureP_ok_iff,
      Except.ok.injEq, Prod.mk.injEq] at hfin
    obtain ⟨r1, s7, hx, hm, hb⟩ := hfin
    rw [hm]
  | false =>
    rw [hg3, if_neg (by simp)] at hfin
    simp only [ParseM.bind_ok_iff, ParseM.map_ok_iff, ParseM.pure_ok_iff, ParseM.pureP_ok_iff,
      Except.ok.injEq, Prod.mk.injEq] at hfin
    obtain ⟨r1, s7, hx, hm, hb⟩ := hfin
    rw [hm]

/-- Witness for claim C10: a LabeledMarker decoded from 20 zero bytes at
wire version 2.5.0.0 has param = None and its occluded property raises. -/
theorem c10_labeled_marker_flags_raise_witness :
    (LabeledMarker.mk 0 [0, 0, 0] 0 none none).param = none ∧
    (LabeledMarker.mk 0 [0, 0, 0] 0 none none).occluded = .error .typeError ∧
    (LabeledMarker.mk 0 [0, 0, 0] 0 none none).point_cloud_solved = .error .typeError ∧
    (LabeledMarker.mk 0 [0, 0, 0] 0 none none).model_solved = .error .typeError ∧
    (LabeledMarker.mk 0 [0, 0, 0] 0 none none).has_model = .error .typeError ∧
    (LabeledMarker.mk 0 [0, 0, 0] 0 none none).unlabeled = .error .typeError ∧
    (LabeledMarker.mk 0 [0, 0, 0] 0 none none).active = .error .typeError :=
  c10_labeled_marker_flags_raise ⟨[2, 5, 0, 0]⟩ ⟨List.replicate 20 0, 0⟩
    ⟨List.replicate 20 0, 20⟩ (LabeledMarker.mk 0 [0, 0, 0] 0 none none)
    (by decide) rfl
